import Mathlib

/-
Shallow embedding of `src/account_manager.py` (account aggregation and
fraud-response cancellation).  Remote HTTP calls are modelled by a `Gateway`
record of oracles: each Bool-valued field gives the success/failure of the
corresponding POST/DELETE call, and each Option-valued field gives the parsed
response of the corresponding GET call (`none` = transport/HTTP failure, the
`except HTTPError` path of the source).  Every embedded operation additionally
returns the ordered list of gateway calls it issues, so that claims about
which calls are made can be stated.  Python dicts are modelled as association
lists with insert-or-assign semantics (insertion order preserved), and the
live-list iteration of `block_spei_user_account` is modelled index-by-index,
exactly as a Python list iterator behaves under concurrent `list.remove`.
-/

set_option autoImplicit false
set_option linter.unusedVariables false

/-- The 13-value card status enumeration, from the `card_status` Literal of
`UserCard` in the source. -/
inductive CardStatus
  | ACTIVATED_NO_PIN
  | ACTIVE
  | BROKEN
  | CANCELED
  | CREATED
  | DEACTIVATED
  | DELETED
  | FROZEN
  | FROZEN_PERMANENT
  | LOST
  | REORDERED_KLAYUDA
  | SHIPPED
  | STOLEN
deriving DecidableEq

/-- The card type enumeration, from the `card_type` Literal of `UserCard`. -/
inductive CardType
  | PHYSICAL
  | VIRTUAL
deriving DecidableEq

/-- One gateway call, tagged by which remote endpoint of the source it is:
`deleteCard` = `delete_virtual_card`, `updateStatus` = `update_card_status`,
`lockMobile` = `block_mobile_access`, `deactivateSpei` = `block_spei`,
`accountProviders` = `check_account_providers`, `cardList` = `check_cards`,
`mobileChunk` = one batched POST of `check_mobile_access`. -/
inductive GwCall
  | deleteCard (klrid : String)
  | updateStatus (klrid : String) (target : CardStatus)
  | lockMobile (user_id : String)
  | deactivateSpei (user_id : String) (spei_id : String)
  | accountProviders (user_id : String)
  | cardList (account_id : Option String)
  | mobileChunk (ids : List String)
deriving DecidableEq

/-- One entry of the `accounts` listing returned by `check_account_providers`;
both fields use `.get(..., None)` in the source, hence `Option`. -/
structure AccountEntry where
  providerId : Option String
  internalId : Option String
deriving DecidableEq

/-- One entry of the card listing returned by `check_cards` (fields `id`,
`status`, `cardType` of the parsed JSON). -/
structure CardJson where
  id : String
  status : CardStatus
  cardType : CardType
deriving DecidableEq

/-- The `UserCard` pydantic model of the source (UUIDs modelled as strings). -/
structure UserCard where
  user_id : Option String
  klrid : String
  card_status : CardStatus
  card_type : CardType
deriving DecidableEq

/-- The `UserAccount` pydantic model of the source.  `parabilium_account_id`
holds the string the source stores there: the sentinel string `"not_found"`
when no PARABILIUM entry was seen, or the entry's `internalId` (an `Option`
because the source reads it with `.get('internalId', None)`). -/
structure UserAccount where
  user_id : String
  parabilium_account_id : Option String
  active_spei : List String
  has_mobile_access : Option Bool
  cards : List UserCard
deriving DecidableEq

/-- The dict returned by `UserAccount.check_active_services`. -/
structure ServicesSummary where
  user_id : String
  has_mobile_access : Option Bool
  has_active_spei : Bool
  has_active_cards : Bool
deriving DecidableEq

/-- Oracles for the remote backends.  Bool fields are success of the
corresponding POST/DELETE; Option fields are the parsed GET responses.
`mobile_chunk_fails` says whether the batched entitlement POST for a chunk
fails; on success the backend answers one enabled flag per requested id
(`mobile_flag`), which is the per-id contract of the entitlement service. -/
structure Gateway where
  delete_virtual_card : String → Bool
  update_card_status : String → CardStatus → Bool
  block_mobile_access : String → Bool
  block_spei : String → String → Bool
  check_account_providers : String → Option (List AccountEntry)
  check_cards : Option String → Option (List CardJson)
  mobile_chunk_fails : List String → Bool
  mobile_flag : String → Bool

/-- Python dict `d[k] = v`: assign in place when the key exists, else append. -/
def dictInsert {α : Type} (d : List (String × α)) (k : String) (v : α) :
    List (String × α) :=
  match d with
  | [] => [(k, v)]
  | (k2, v2) :: rest =>
    if k2 = k then (k, v) :: rest else (k2, v2) :: dictInsert rest k v

/-- Python dict lookup `d[k]`, as an `Option`. -/
def dictLookup {α : Type} (d : List (String × α)) (k : String) : Option α :=
  match d with
  | [] => none
  | (k2, v) :: rest => if k2 = k then some v else dictLookup rest k

/-- Python `d.update(entries)`: insert-or-assign every pair in order. -/
def dictUpdateMany {α : Type} (d : List (String × α))
    (entries : List (String × α)) : List (String × α) :=
  entries.foldl (fun acc p => dictInsert acc p.1 p.2) d

/-- Fixed-size chunking of a list, as `islice` produces it in the source
(`check_mobile_access` and `create_user_instance_batch`); a chunk size of 0
yields no chunks, as the `while` loop then never runs.  The fuel argument is
an upper bound on the number of chunks; `l.length` always suffices. -/
def chunkListF {α : Type} : Nat → List α → Nat → List (List α)
  | 0, _, _ => []
  | _ + 1, [], _ => []
  | fuel + 1, a :: l, n =>
    if n = 0 then []
    else (a :: l).take n :: chunkListF fuel ((a :: l).drop n) n

/-- Chunking with enough fuel for the whole list. -/
def chunkList {α : Type} (l : List α) (n : Nat) : List (List α) :=
  chunkListF l.length l n

/-- `UserCard.delete` of the source: only a VIRTUAL card issues the DELETE
call; on success the status becomes CANCELED.  A PHYSICAL card does nothing
at all. -/
def UserCard.delete (gw : Gateway) (c : UserCard) : UserCard × List GwCall :=
  if c.card_type = CardType.VIRTUAL then
    (if gw.delete_virtual_card c.klrid
       then { c with card_status := CardStatus.CANCELED } else c,
     [GwCall.deleteCard c.klrid])
  else (c, [])

/-- `UserCard.frozen_permanent` of the source: always issues the status POST;
on success the status becomes FROZEN_PERMANENT. -/
def UserCard.frozen_permanent (gw : Gateway) (c : UserCard) :
    UserCard × List GwCall :=
  (if gw.update_card_status c.klrid CardStatus.FROZEN_PERMANENT
     then { c with card_status := CardStatus.FROZEN_PERMANENT } else c,
   [GwCall.updateStatus c.klrid CardStatus.FROZEN_PERMANENT])

/-- `UserCard.cancel` of the source: delete a VIRTUAL card, permanently
freeze anything else. -/
def UserCard.cancel (gw : Gateway) (c : UserCard) : UserCard × List GwCall :=
  if c.card_type = CardType.VIRTUAL then UserCard.delete gw c
  else UserCard.frozen_permanent gw c

/-- The literal status list of `check_active_services` / `get_active_cards`. -/
def active_statuses : List CardStatus :=
  [CardStatus.ACTIVE, CardStatus.FROZEN, CardStatus.ACTIVATED_NO_PIN,
   CardStatus.CREATED, CardStatus.SHIPPED]

/-- The source's membership test `card.card_status in [...]`. -/
def is_active_status (s : CardStatus) : Bool :=
  active_statuses.contains s

/-- `UserAccount.get_active_cards`: the loop appending every card whose
status passes the membership test, i.e. a filter. -/
def UserAccount.get_active_cards (u : UserAccount) : List UserCard :=
  u.cards.filter (fun c => is_active_status c.card_status)

/-- `UserAccount.check_active_services`: the summary dict; the card loop with
`break` sets the flag iff some card passes the membership test. -/
def UserAccount.check_active_services (u : UserAccount) : ServicesSummary :=
  { user_id := u.user_id
    has_mobile_access := u.has_mobile_access
    has_active_spei := decide (0 < u.active_spei.length)
    has_active_cards := u.cards.any (fun c => is_active_status c.card_status) }

/-- The provider scan inside `create_user_instance`: fold over the `accounts`
listing, appending to `spei` the `internalId` of every SPEI-tagged entry that
has one, and letting every PARABILIUM-tagged entry overwrite the parabilium
id (initially the sentinel string `"not_found"`). -/
def scan_accounts (entries : List AccountEntry) : List String × Option String :=
  entries.foldl
    (fun acc account =>
      let acc1 :=
        if account.providerId = some "SPEI" then
          match account.internalId with
          | some i => (acc.1 ++ [i], acc.2)
          | none => acc
        else acc
      if account.providerId = some "PARABILIUM" then (acc1.1, account.internalId)
      else acc1)
    ([], some "not_found")

/-- The per-user body of `create_user_instance`: identity lookup, provider
scan, optional card lookup, and construction of the `UserAccount`; a failed
identity or card lookup yields `none` for the user.  `mobile` is the dict
returned by `check_mobile_access`; a key missing from it is read as None. -/
def fetch_one_user (gw : Gateway) (mobile : List (String × Option Bool))
    (u : String) : Option UserAccount × List GwCall :=
  match gw.check_account_providers u with
  | none => (none, [GwCall.accountProviders u])
  | some entries =>
    let sp := scan_accounts entries
    if sp.2 = some "not_found" then
      (some { user_id := u
              parabilium_account_id := sp.2
              active_spei := sp.1
              has_mobile_access := (dictLookup mobile u).join
              cards := [] },
       [GwCall.accountProviders u])
    else
      match gw.check_cards sp.2 with
      | none => (none, [GwCall.accountProviders u, GwCall.cardList sp.2])
      | some cjs =>
        (some { user_id := u
                parabilium_account_id := sp.2
                active_spei := sp.1
                has_mobile_access := (dictLookup mobile u).join
                cards := cjs.map (fun cj =>
                  { user_id := some u
                    klrid := cj.id
                    card_status := cj.status
                    card_type := cj.cardType }) },
         [GwCall.accountProviders u, GwCall.cardList sp.2])

/-- The per-chunk loop of `check_mobile_access`: one batched POST per chunk;
on chunk failure every id of the chunk maps to None, on success every id of
the chunk maps to its enabled flag. -/
def mobile_chunks_loop (gw : Gateway) (results : List (String × Option Bool)) :
    List (List String) → List (String × Option Bool) × List GwCall
  | [] => (results, [])
  | chunk :: rest =>
    let results2 :=
      if gw.mobile_chunk_fails chunk then
        chunk.foldl (fun d u => dictInsert d u none) results
      else
        chunk.foldl (fun d u => dictInsert d u (some (gw.mobile_flag u))) results
    ((mobile_chunks_loop gw results2 rest).1,
     GwCall.mobileChunk chunk :: (mobile_chunks_loop gw results2 rest).2)

/-- `AccountManager.check_mobile_access`: partition the ids into chunks of
`batch_size` and run the per-chunk loop. -/
def check_mobile_access (gw : Gateway) (ids : List String) (batch_size : Nat) :
    List (String × Option Bool) × List GwCall :=
  mobile_chunks_loop gw [] (chunkList ids batch_size)

/-- The user loop of `create_user_instance`, building the `instances` dict. -/
def create_user_loop (gw : Gateway) (mobile : List (String × Option Bool)) :
    List (String × Option UserAccount) → List String →
    List (String × Option UserAccount) × List GwCall
  | acc, [] => (acc, [])
  | acc, u :: rest =>
    ((create_user_loop gw mobile (dictInsert acc u (fetch_one_user gw mobile u).1) rest).1,
     (fetch_one_user gw mobile u).2 ++
       (create_user_loop gw mobile (dictInsert acc u (fetch_one_user gw mobile u).1) rest).2)

/-- `AccountManager.create_user_instance`: mobile lookup (with the source's
default batch size 10) followed by the per-user loop.  It returns the
`instances` dict and does not touch the Account Store. -/
def create_user_instance (gw : Gateway) (ids : List String) :
    List (String × Option UserAccount) × List GwCall :=
  ((create_user_loop gw (check_mobile_access gw ids 10).1 [] ids).1,
   (check_mobile_access gw ids 10).2 ++
     (create_user_loop gw (check_mobile_access gw ids 10).1 [] ids).2)

/-- The Account Store `self.users`, a dict from user id to record.  After
`create_user_instance_batch` it can also hold `None` markers, hence the
`Option` values. -/
abbrev Store : Type := List (String × Option UserAccount)

/-- `AccountManager.create_user_instance_batch`: chunk the ids (default
batch size 50), run `create_user_instance` on each chunk (the process pool
maps chunks in order and merges nothing across them, so a sequential map is
observationally the same), then `self.users.update(...)` with every per-chunk
dict, including its `None` entries.  Returns the new Store plus the list of
per-chunk result dicts and the calls issued.  `n_process` bounds parallelism
only and does not affect the result. -/
def create_user_instance_batch (gw : Gateway) (store : Store)
    (ids : List String) (batch_size : Nat) (n_process : Nat) :
    Store × List (List (String × Option UserAccount)) × List GwCall :=
  let results := (chunkList ids batch_size).map (fun c => create_user_instance gw c)
  ((results.map Prod.fst).foldl dictUpdateMany store,
   results.map Prod.fst,
   results.foldl (fun acc r => acc ++ r.2) [])

/-- `AccountManager.refresh_all_data`: list the Store's keys and, when there
are any, call `create_user_instance` on them — discarding its return value,
so the Store itself is returned unchanged; only the gateway calls happen. -/
def refresh_all_data (gw : Gateway) (store : Store) : Store × List GwCall :=
  if 0 < (store.map Prod.fst).length then
    (store, (create_user_instance gw (store.map Prod.fst)).2)
  else (store, [])

/-- `AccountManager.block_mobile_user_account`: only when
`user.has_mobile_access` is truthy (i.e. `some true`) issue the lock call;
on success set the flag to `some false`. -/
def block_mobile_user_account (gw : Gateway) (u : UserAccount) :
    UserAccount × List GwCall :=
  if u.has_mobile_access = some true then
    if gw.block_mobile_access u.user_id then
      ({ u with has_mobile_access := some false }, [GwCall.lockMobile u.user_id])
    else (u, [GwCall.lockMobile u.user_id])
  else (u, [])

/-- The `for spei_id in user.active_spei: ... remove` loop of
`block_spei_user_account`, modelled exactly as CPython runs it: the list
iterator keeps a cursor `i`, yields `lst[i]` while `i < len(lst)`, and
`list.remove` deletes the first occurrence of the value from the live list,
shifting later elements under the cursor.  Each iteration issues the
deactivation call; on success the id is removed.  The fuel argument bounds
the number of iterations; the initial list length always suffices, since the
cursor grows by one per iteration and the list never grows. -/
def blockSpeiLoopF (gw : Gateway) (uid : String) :
    Nat → List String → Nat → List String × List GwCall
  | 0, lst, _ => (lst, [])
  | fuel + 1, lst, i =>
    if h : i < lst.length then
      if gw.block_spei uid (lst.get ⟨i, h⟩) then
        ((blockSpeiLoopF gw uid fuel (lst.erase (lst.get ⟨i, h⟩)) (i + 1)).1,
         GwCall.deactivateSpei uid (lst.get ⟨i, h⟩) ::
           (blockSpeiLoopF gw uid fuel (lst.erase (lst.get ⟨i, h⟩)) (i + 1)).2)
      else
        ((blockSpeiLoopF gw uid fuel lst (i + 1)).1,
         GwCall.deactivateSpei uid (lst.get ⟨i, h⟩) ::
           (blockSpeiLoopF gw uid fuel lst (i + 1)).2)
    else (lst, [])

/-- `AccountManager.block_spei_user_account`: run the live-iteration loop on
`user.active_spei` starting at cursor 0. -/
def block_spei_user_account (gw : Gateway) (u : UserAccount) :
    UserAccount × List GwCall :=
  ({ u with
      active_spei := (blockSpeiLoopF gw u.user_id u.active_spei.length u.active_spei 0).1 },
   (blockSpeiLoopF gw u.user_id u.active_spei.length u.active_spei 0).2)

/-- `AccountManager.block_cards_user_account`: compute the active subset,
then run `cancel` on each of those card objects (mutation in place: each
position of `cards` whose card is in the active subset is replaced by its
cancelled value).  Calls are issued in the order of the active list. -/
def block_cards_user_account (gw : Gateway) (u : UserAccount) :
    UserAccount × List GwCall :=
  ({ u with
      cards := u.cards.map (fun c =>
        if is_active_status c.card_status then (UserCard.cancel gw c).1 else c) },
   u.get_active_cards.flatMap (fun c => (UserCard.cancel gw c).2))

/-- `AccountManager.cancel_account`: the three phases in order, each
best-effort. -/
def cancel_account (gw : Gateway) (u : UserAccount) : UserAccount × List GwCall :=
  ((block_cards_user_account gw
      (block_spei_user_account gw (block_mobile_user_account gw u).1).1).1,
   (block_mobile_user_account gw u).2 ++
     (block_spei_user_account gw (block_mobile_user_account gw u).1).2 ++
     (block_cards_user_account gw
       (block_spei_user_account gw (block_mobile_user_account gw u).1).1).2)

/-- `AccountManager.block_all`: cancel every record in the Store in place
(a `None` marker left by a failed batch fetch has no record to cancel), then,
when `refresh` is set, run `refresh_all_data` — whose fetched results the
source discards. -/
def block_all (gw : Gateway) (store : Store) (refresh : Bool) :
    Store × List GwCall :=
  let cancelled : Store :=
    store.map (fun p => (p.1, p.2.map (fun a => (cancel_account gw a).1)))
  let calls :=
    store.foldl (fun acc p =>
      acc ++ (match p.2 with
              | some a => (cancel_account gw a).2
              | none => [])) []
  if refresh then
    ((refresh_all_data gw cancelled).1, calls ++ (refresh_all_data gw cancelled).2)
  else (cancelled, calls)

/-- A gateway on which every mutation call succeeds, every chunked mobile
lookup succeeds with flag `true`, and both GET listings fail. -/
def gwW : Gateway :=
  { delete_virtual_card := fun _ => true
    update_card_status := fun _ _ => true
    block_mobile_access := fun _ => true
    block_spei := fun _ _ => true
    check_account_providers := fun _ => none
    check_cards := fun _ => none
    mobile_chunk_fails := fun _ => false
    mobile_flag := fun _ => true }

/-- `gwW` with an identity lookup that returns an empty listing. -/
def gwC3 : Gateway :=
  { gwW with check_account_providers := fun _ => some [] }

/-- An account listing with two SPEI entries carrying the same internal id. -/
def entries9 : List AccountEntry :=
  [{ providerId := some "SPEI", internalId := some "r1" },
   { providerId := some "SPEI", internalId := some "r1" }]

/-- An account listing with one SPEI entry. -/
def entries9b : List AccountEntry :=
  [{ providerId := some "SPEI", internalId := some "r1" }]

/-- `gwW` with an identity lookup returning two SPEI entries that carry the
same internal id. -/
def gw9 : Gateway :=
  { gwW with check_account_providers := fun _ => some entries9 }

/-- `gwW` with an identity lookup returning one SPEI entry. -/
def gw9b : Gateway :=
  { gwW with check_account_providers := fun _ => some entries9b }

/-- An account with two active payment rails and nothing else. -/
def uC1 : UserAccount :=
  { user_id := "u1", parabilium_account_id := some "a1",
    active_spei := ["r1", "r2"], has_mobile_access := some false, cards := [] }

/-- A pre-existing Store record for user `"u2"`. -/
def accOld : UserAccount :=
  { user_id := "u2", parabilium_account_id := some "a1",
    active_spei := ["r1"], has_mobile_access := some true, cards := [] }

/-- A stored record for user `"u1"` with mobile access enabled. -/
def accC3 : UserAccount :=
  { user_id := "u1", parabilium_account_id := some "a1",
    active_spei := [], has_mobile_access := some true, cards := [] }

/-- The record a fresh fetch of `"u1"` against `gwC3` produces. -/
def freshC3 : UserAccount :=
  { user_id := "u1", parabilium_account_id := some "not_found",
    active_spei := [], has_mobile_access := some true, cards := [] }

/-- The record the Aggregator produces for `"u1"` against `gw9`: the SPEI
id `"r1"` appears twice. -/
def rec9 : UserAccount :=
  { user_id := "u1", parabilium_account_id := some "not_found",
    active_spei := ["r1", "r1"], has_mobile_access := some true, cards := [] }

/-- The record `fetch_one_user` produces for `"u1"` against `gw9b` with an
empty mobile dict. -/
def rec9b : UserAccount :=
  { user_id := "u1", parabilium_account_id := some "not_found",
    active_spei := ["r1"], has_mobile_access := none, cards := [] }

/-- An account with one VIRTUAL active card, for concrete instantiation. -/
def uW : UserAccount :=
  { user_id := "u1", parabilium_account_id := some "a1",
    active_spei := [], has_mobile_access := some true,
    cards := [{ user_id := some "u1", klrid := "k1",
                card_status := CardStatus.ACTIVE, card_type := CardType.VIRTUAL }] }

/-- A PHYSICAL card, for concrete instantiation. -/
def cW : UserCard :=
  { user_id := some "u1", klrid := "k2",
    card_status := CardStatus.ACTIVE, card_type := CardType.PHYSICAL }

/-- The live-iteration loop only ever erases elements: its final list is a
sublist of the list it started from. -/
theorem spei_loopF_sublist (gw : Gateway) (uid : String) :
    ∀ (fuel : Nat) (lst : List String) (i : Nat),
      (blockSpeiLoopF gw uid fuel lst i).1.Sublist lst := by
  intro fuel
  induction fuel with
  | zero => intro lst i; exact List.Sublist.refl lst
  | succ n ih =>
    intro lst i
    unfold blockSpeiLoopF
    by_cases h : i < lst.length
    · rw [dif_pos h]
      by_cases hb : gw.block_spei uid (lst.get ⟨i, h⟩) = true
      · rw [if_pos hb]
        exact (ih _ _).trans (List.erase_sublist _ _)
      · rw [if_neg hb]
        exact ih _ _
    · rw [dif_neg h]

/-- Every call the live-iteration loop issues is a rail-deactivation call
for the given user. -/
theorem spei_loopF_calls (gw : Gateway) (uid : String) :
    ∀ (fuel : Nat) (lst : List String) (i : Nat) (c : GwCall),
      c ∈ (blockSpeiLoopF gw uid fuel lst i).2 →
      ∃ x, c = GwCall.deactivateSpei uid x := by
  intro fuel
  induction fuel with
  | zero => intro lst i c hc; simp [blockSpeiLoopF] at hc
  | succ n ih =>
    intro lst i c hc
    unfold blockSpeiLoopF at hc
    by_cases h : i < lst.length
    · rw [dif_pos h] at hc
      by_cases hb : gw.block_spei uid (lst.get ⟨i, h⟩) = true
      · rw [if_pos hb] at hc
        rcases List.mem_cons.mp hc with hhd | htl
        · exact ⟨_, hhd⟩
        · exact ih _ _ _ htl
      · rw [if_neg hb] at hc
        rcases List.mem_cons.mp hc with hhd | htl
        · exact ⟨_, hhd⟩
        · exact ih _ _ _ htl
    · rw [dif_neg h] at hc
      simp at hc

/-- Every call `UserCard.cancel` issues is a card delete or a card status
update. -/
theorem card_cancel_calls (gw : Gateway) (c : UserCard) :
    ∀ k ∈ (UserCard.cancel gw c).2,
      (∃ s, k = GwCall.deleteCard s) ∨ ∃ s t, k = GwCall.updateStatus s t := by
  intro k hk
  by_cases hv : c.card_type = CardType.VIRTUAL
  · simp only [UserCard.cancel, UserCard.delete, hv, if_pos] at hk
    rcases List.mem_singleton.mp hk with h
    exact Or.inl ⟨_, h⟩
  · simp only [UserCard.cancel, UserCard.frozen_permanent, hv, if_neg,
      if_false] at hk
    rcases List.mem_singleton.mp hk with h
    exact Or.inr ⟨_, _, h⟩

/-- The mobile phase leaves the card list alone. -/
theorem bm_cards (gw : Gateway) (u : UserAccount) :
    ((block_mobile_user_account gw u).1).cards = u.cards := by
  unfold block_mobile_user_account
  split_ifs <;> rfl

/-- The mobile phase leaves the payment rails alone. -/
theorem bm_spei (gw : Gateway) (u : UserAccount) :
    ((block_mobile_user_account gw u).1).active_spei = u.active_spei := by
  unfold block_mobile_user_account
  split_ifs <;> rfl

/-- The mobile phase leaves the user id alone. -/
theorem bm_uid (gw : Gateway) (u : UserAccount) :
    ((block_mobile_user_account gw u).1).user_id = u.user_id := by
  unfold block_mobile_user_account
  split_ifs <;> rfl

/-- The rail phase leaves the card list alone. -/
theorem bs_cards (gw : Gateway) (u : UserAccount) :
    ((block_spei_user_account gw u).1).cards = u.cards := rfl

/-- The rail phase leaves the mobile flag alone. -/
theorem bs_mobile (gw : Gateway) (u : UserAccount) :
    ((block_spei_user_account gw u).1).has_mobile_access = u.has_mobile_access := rfl

/-- The card phase leaves the mobile flag alone. -/
theorem bc_mobile (gw : Gateway) (u : UserAccount) :
    ((block_cards_user_account gw u).1).has_mobile_access = u.has_mobile_access := rfl

/-- The card phase leaves the payment rails alone. -/
theorem bc_spei (gw : Gateway) (u : UserAccount) :
    ((block_cards_user_account gw u).1).active_spei = u.active_spei := rfl

/-- After the whole cancellation workflow, the card list is the original one
with `cancel` applied pointwise to the cards that were in the active subset. -/
theorem cancel_account_cards (gw : Gateway) (u : UserAccount) :
    ((cancel_account gw u).1).cards =
      u.cards.map (fun c =>
        if is_active_status c.card_status then (UserCard.cancel gw c).1 else c) := by
  show ((block_cards_user_account gw _).1).cards = _
  unfold block_cards_user_account
  simp only
  rw [bs_cards, bm_cards]

/-- After the whole cancellation workflow, the rail list is a sublist of the
original one. -/
theorem cancel_spei_sublist (gw : Gateway) (u : UserAccount) :
    ((cancel_account gw u).1).active_spei.Sublist u.active_spei := by
  show ((block_cards_user_account gw _).1).active_spei.Sublist _
  rw [bc_spei]
  unfold block_spei_user_account
  simp only
  rw [bm_spei]
  exact spei_loopF_sublist gw _ _ _ _

/-- After the whole cancellation workflow, the mobile flag is the one the
mobile phase computed. -/
theorem cancel_account_mobile (gw : Gateway) (u : UserAccount) :
    ((cancel_account gw u).1).has_mobile_access =
      ((block_mobile_user_account gw u).1).has_mobile_access := by
  show ((block_cards_user_account gw _).1).has_mobile_access = _
  rw [bc_mobile, bs_mobile]

/-- Inserting a fresh key into a dict appends it: the key list grows by that
key at the end. -/
theorem dictInsert_keys {α : Type} (d : List (String × α)) (k : String) (v : α)
    (hk : k ∉ d.map Prod.fst) :
    (dictInsert d k v).map Prod.fst = d.map Prod.fst ++ [k] := by
  induction d with
  | nil => rfl
  | cons p rest ih =>
    obtain ⟨k2, v2⟩ := p
    simp only [List.map_cons, List.mem_cons] at hk
    push_neg at hk
    unfold dictInsert
    rw [if_neg (fun h => hk.1 h.symm)]
    simp only [List.map_cons, ih hk.2, List.cons_append]

/-- The user loop of `create_user_instance` writes one dict entry per input
id, in input order: with distinct ids none of which is already a key, the
final key list is the accumulator's keys followed by the ids. -/
theorem create_user_loop_keys (gw : Gateway) (mobile : List (String × Option Bool)) :
    ∀ (ids : List String) (acc : List (String × Option UserAccount)),
      (∀ u ∈ ids, u ∉ acc.map Prod.fst) → ids.Nodup →
      ((create_user_loop gw mobile acc ids).1).map Prod.fst =
        acc.map Prod.fst ++ ids := by
  intro ids
  induction ids with
  | nil => intro acc h hnd; simp [create_user_loop]
  | cons u rest ih =>
    intro acc h hnd
    have hu : u ∉ acc.map Prod.fst := h u (List.mem_cons_self u rest)
    have hkeys := dictInsert_keys acc u (fetch_one_user gw mobile u).1 hu
    unfold create_user_loop
    simp only
    rw [ih _ ?inv ?nd]
    case inv =>
      intro w hw
      rw [hkeys]
      simp only [List.mem_append, List.mem_singleton]
      rintro (hwacc | hwu)
      · exact h w (List.mem_cons_of_mem _ hw) hwacc
      · subst hwu
        exact (List.nodup_cons.mp hnd).1 hw
    case nd => exact (List.nodup_cons.mp hnd).2
    rw [hkeys]
    simp

/-- The chunk loop of `check_mobile_access` issues exactly one request per
chunk. -/
theorem mobile_chunks_loop_count (gw : Gateway) :
    ∀ (chunks : List (List String)) (res : List (String × Option Bool)),
      ((mobile_chunks_loop gw res chunks).2).length = chunks.length := by
  intro chunks
  induction chunks with
  | nil => intro res; rfl
  | cons c rest ih =>
    intro res
    unfold mobile_chunks_loop
    simp [ih]

/-- Chunking a list into chunks of size `n > 0` yields exactly the rounded-up
quotient of its length by `n`, given fuel at least the length. -/
theorem chunkListF_length {α : Type} (n : Nat) (hn : 0 < n) :
    ∀ (fuel : Nat) (l : List α), l.length ≤ fuel →
      (chunkListF fuel l n).length = (l.length + n - 1) / n := by
  intro fuel
  induction fuel with
  | zero =>
    intro l hl
    have hnil : l = [] := List.eq_nil_of_length_eq_zero (Nat.le_zero.mp hl)
    subst hnil
    simp only [chunkListF, List.length_nil]
    exact (Nat.div_eq_of_lt (by omega : 0 + n - 1 < n)).symm
  | succ fuel ih =>
    intro l hl
    cases l with
    | nil =>
      simp only [chunkListF, List.length_nil]
      exact (Nat.div_eq_of_lt (by omega : 0 + n - 1 < n)).symm
    | cons a t =>
      simp only [List.length_cons] at hl
      unfold chunkListF
      rw [if_neg (by omega : ¬ n = 0)]
      simp only [List.length_cons]
      rw [ih ((a :: t).drop n)
        (by rw [List.length_drop]; simp only [List.length_cons]; omega)]
      rw [List.length_drop]
      simp only [List.length_cons]
      rcases le_or_lt (t.length + 1) n with hmn | hmn
      · have h1 : t.length + 1 - n = 0 := by omega
        rw [h1, Nat.div_eq_of_lt (by omega : 0 + n - 1 < n)]
        rw [Nat.div_eq_of_lt_le (by omega : 1 * n ≤ t.length + 1 + n - 1)
          (by omega : t.length + 1 + n - 1 < (1 + 1) * n)]
      · have h2 : t.length + 1 - n + n - 1 = t.length := by omega
        have h3 : t.length + 1 + n - 1 = t.length + n := by omega
        rw [h2, h3, Nat.add_div_right _ hn]

/-- C1: on an account whose `active_spei` is `["r1", "r2"]` and a gateway on
which every deactivation call succeeds, the payment-rail phase issues the
deactivate-for-fraud call only for `"r1"` and leaves `["r2"]` in the set:
iterating the live list while removing on success skips `"r2"` entirely, so
the call is NOT issued for every id that was in the set at the start of the
phase, and the post-phase set is not the pre-phase set minus the successful
ids (both calls would have succeeded, so the claim predicts an empty set). -/
theorem c1_live_iteration_skips_rail :
    (block_spei_user_account gwW uC1).2 = [GwCall.deactivateSpei "u1" "r1"] ∧
    ((block_spei_user_account gwW uC1).1).active_spei = ["r2"] := by
  decide

/-- C2: with a pre-existing Store entry for `"u2"` and a batch fetch of
`["u2"]` whose identity lookup fails, `create_user_instance_batch` overwrites
the pre-existing entry with the `None` marker via `self.users.update(...)`:
the failed fetch does NOT leave the prior entry untouched. -/
theorem c2_failed_fetch_clobbers_store :
    (create_user_instance_batch gwW [("u2", some accOld)] ["u2"] 50 4).1 =
      [("u2", (none : Option UserAccount))] ∧
    [("u2", (none : Option UserAccount))] ≠ [("u2", some accOld)] := by
  decide

/-- C3: `block_all` with the re-fetch requested leaves the Store holding the
in-place cancelled record, not the freshly fetched one: `refresh_all_data`
calls `create_user_instance` but discards its result.  Here the fresh fetch
of `"u1"` returns `freshC3`, which differs from the cancelled stored record,
yet the Store still holds the cancelled record afterwards. -/
theorem c3_refresh_discards_fetch :
    (block_all gwC3 [("u1", some accC3)] true).1 =
      [("u1", some { accC3 with has_mobile_access := some false })] ∧
    (create_user_instance gwC3 ["u1"]).1 = [("u1", some freshC3)] ∧
    ({ accC3 with has_mobile_access := some false } : UserAccount) ≠ freshC3 := by
  decide

/-- C6: the set of ids in `active_spei` after the cancellation workflow is a
subset of the set it held before: cancellation never adds a rail id. -/
theorem c6_rails_monotonic_shrink (gw : Gateway) (u : UserAccount) :
    ((cancel_account gw u).1).active_spei ⊆ u.active_spei :=
  (cancel_spei_sublist gw u).subset

/-- C7: a card passes the derived active predicate iff its status is one of
ACTIVE, FROZEN, ACTIVATED_NO_PIN, CREATED, SHIPPED (in particular DELETED is
excluded), and both `get_active_cards` and the `has_active_cards` field of
the `check_active_services` summary are computed exactly from this predicate
over the record's cards. -/
theorem c7_active_predicate (s : CardStatus) (u : UserAccount) (c : UserCard) :
    (is_active_status s = true ↔
      (s = CardStatus.ACTIVE ∨ s = CardStatus.FROZEN ∨
       s = CardStatus.ACTIVATED_NO_PIN ∨ s = CardStatus.CREATED ∨
       s = CardStatus.SHIPPED)) ∧
    is_active_status CardStatus.DELETED = false ∧
    (c ∈ u.get_active_cards ↔ c ∈ u.cards ∧ is_active_status c.card_status = true) ∧
    ((u.check_active_services).has_active_cards = true ↔
      ∃ c2 ∈ u.cards, is_active_status c2.card_status = true) := by
  refine ⟨?_, rfl, ?_, ?_⟩
  · cases s <;> decide
  · unfold UserAccount.get_active_cards
    exact List.mem_filter
  · unfold UserAccount.check_active_services
    simp only
    exact List.any_eq_true

/-- C10: invoking `delete` on a card whose type is PHYSICAL is a silent
no-op: the card is returned unchanged in every field and no gateway call is
issued. -/
theorem c10_delete_physical_noop (gw : Gateway) (c : UserCard)
    (h : c.card_type = CardType.PHYSICAL) :
    UserCard.delete gw c = (c, []) := by
  unfold UserCard.delete
  simp [h]

/-- Witness for C10 at the concrete PHYSICAL card `cW`. -/
theorem c10_witness :
    cW.card_type = CardType.PHYSICAL ∧ UserCard.delete gwW cW = (cW, []) :=
  ⟨rfl, c10_delete_physical_noop gwW cW rfl⟩

/-- C8: for distinct ids and a positive batch size `B`, `check_mobile_access`
issues exactly the rounded-up quotient of the id count by `B` as chunked
entitlement requests, and the fetch (`create_user_instance`) returns a
mapping whose keys are exactly the input ids, in order, each mapped to a
record or the explicit absence marker — no id duplicated or missing. -/
theorem c8_chunk_count_and_keys (gw : Gateway) (ids : List String) (B : Nat)
    (hB : 0 < B) (hnd : ids.Nodup) :
    ((check_mobile_access gw ids B).2).length = (ids.length + B - 1) / B ∧
    ((create_user_instance gw ids).1).map Prod.fst = ids := by
  constructor
  · unfold check_mobile_access chunkList
    rw [mobile_chunks_loop_count]
    exact chunkListF_length B hB ids.length ids le_rfl
  · unfold create_user_instance
    simp only
    rw [create_user_loop_keys gw _ ids [] (by simp) hnd]
    simp

/-- Witness for C8: three distinct ids with batch size 2 give two chunked
requests and a result keyed exactly by the three ids. -/
theorem c8_witness :
    ((0 : Nat) < 2 ∧ (["a", "b", "c"] : List String).Nodup) ∧
    (((check_mobile_access gwW ["a", "b", "c"] 2).2).length =
        ((["a", "b", "c"] : List String).length + 2 - 1) / 2 ∧
      ((create_user_instance gwW ["a", "b", "c"]).1).map Prod.fst =
        ["a", "b", "c"]) :=
  ⟨⟨by decide, by decide⟩,
   c8_chunk_count_and_keys gwW ["a", "b", "c"] 2 (by decide) (by decide)⟩

/-- C4: after the cancellation workflow, the card at each position has either
its prior status (the gateway call failed or the card was not in the active
subset), or CANCELED when its type is VIRTUAL and the delete call succeeded,
or FROZEN_PERMANENT when its type is PHYSICAL and the freeze-permanent call
succeeded; no other status is reachable. -/
theorem c4_cancel_card_status (gw : Gateway) (u : UserAccount) (i : Nat)
    (h : i < u.cards.length)
    (h2 : i < (((cancel_account gw u).1).cards).length) :
    ((((cancel_account gw u).1).cards).get ⟨i, h2⟩).card_status =
        ((u.cards).get ⟨i, h⟩).card_status ∨
    (((u.cards).get ⟨i, h⟩).card_type = CardType.VIRTUAL ∧
      ((((cancel_account gw u).1).cards).get ⟨i, h2⟩).card_status =
        CardStatus.CANCELED ∧
      gw.delete_virtual_card ((u.cards).get ⟨i, h⟩).klrid = true) ∨
    (((u.cards).get ⟨i, h⟩).card_type = CardType.PHYSICAL ∧
      ((((cancel_account gw u).1).cards).get ⟨i, h2⟩).card_status =
        CardStatus.FROZEN_PERMANENT ∧
      gw.update_card_status ((u.cards).get ⟨i, h⟩).klrid
        CardStatus.FROZEN_PERMANENT = true) := by
  have hc := cancel_account_cards gw u
  revert h2
  rw [hc]
  intro h2
  rw [List.get_eq_getElem, List.get_eq_getElem, List.getElem_map]
  simp only
  by_cases ha : is_active_status (u.cards[i]).card_status = true
  · rw [if_pos ha]
    cases hv : (u.cards[i]).card_type with
    | VIRTUAL =>
      unfold UserCard.cancel UserCard.delete
      rw [hv]
      simp only [if_pos]
      cases hdel : gw.delete_virtual_card (u.cards[i]).klrid with
      | false => simp [hdel]
      | true =>
        right; left
        refine ⟨?_, ?_, ?_⟩ <;> simp
    | PHYSICAL =>
      unfold UserCard.cancel UserCard.frozen_permanent
      rw [hv]
      simp only [reduceCtorEq, if_false]
      cases hupd : gw.update_card_status (u.cards[i]).klrid
          CardStatus.FROZEN_PERMANENT with
      | false => simp [hupd]
      | true =>
        right; right
        refine ⟨?_, ?_, ?_⟩ <;> simp
  · rw [if_neg ha]
    left
    rfl

/-- Witness for C4 at the account `uW` (one VIRTUAL ACTIVE card) and the
all-success gateway, position 0. -/
theorem c4_witness :
    ((0 : Nat) < uW.cards.length ∧
      (0 : Nat) < (((cancel_account gwW uW).1).cards).length) ∧
    (((((cancel_account gwW uW).1).cards).get ⟨0, by decide⟩).card_status =
        ((uW.cards).get ⟨0, by decide⟩).card_status ∨
     (((uW.cards).get ⟨0, by decide⟩).card_type = CardType.VIRTUAL ∧
       ((((cancel_account gwW uW).1).cards).get ⟨0, by decide⟩).card_status =
         CardStatus.CANCELED ∧
       gwW.delete_virtual_card ((uW.cards).get ⟨0, by decide⟩).klrid = true) ∨
     (((uW.cards).get ⟨0, by decide⟩).card_type = CardType.PHYSICAL ∧
       ((((cancel_account gwW uW).1).cards).get ⟨0, by decide⟩).card_status =
         CardStatus.FROZEN_PERMANENT ∧
       gwW.update_card_status ((uW.cards).get ⟨0, by decide⟩).klrid
         CardStatus.FROZEN_PERMANENT = true)) :=
  ⟨⟨by decide, by decide⟩,
   c4_cancel_card_status gwW uW 0 (by decide) (by decide)⟩

/-- C5: after the cancellation workflow the mobile flag is `some false` when
it was `some true` beforehand and the revoke call succeeded, and is otherwise
its pre-call value; moreover a mobile-lock call appears in the issued calls
iff the flag was `some true` beforehand (the source's truthiness test). -/
theorem c5_mobile_revocation (gw : Gateway) (u : UserAccount) :
    (((cancel_account gw u).1).has_mobile_access =
      if u.has_mobile_access = some true ∧ gw.block_mobile_access u.user_id = true
      then some false else u.has_mobile_access) ∧
    ((∃ v, GwCall.lockMobile v ∈ (cancel_account gw u).2) ↔
      u.has_mobile_access = some true) := by
  constructor
  · rw [cancel_account_mobile]
    unfold block_mobile_user_account
    by_cases hm : u.has_mobile_access = some true
    · by_cases hb : gw.block_mobile_access u.user_id = true
      · rw [if_pos hm, if_pos hb, if_pos ⟨hm, hb⟩]
      · rw [if_pos hm, if_neg hb, if_neg (fun hc => hb hc.2)]
    · rw [if_neg hm, if_neg (fun hc => hm hc.1)]
  · have hcalls : (cancel_account gw u).2 =
        (block_mobile_user_account gw u).2 ++
          (block_spei_user_account gw (block_mobile_user_account gw u).1).2 ++
          (block_cards_user_account gw
            (block_spei_user_account gw (block_mobile_user_account gw u).1).1).2 :=
      rfl
    constructor
    · rintro ⟨v, hv⟩
      rw [hcalls] at hv
      rcases List.mem_append.mp hv with hv1 | hv2
      · rcases List.mem_append.mp hv1 with hvm | hvs
        · by_cases hm : u.has_mobile_access = some true
          · exact hm
          · exfalso
            unfold block_mobile_user_account at hvm
            rw [if_neg hm] at hvm
            simp at hvm
        · exfalso
          obtain ⟨x, hx⟩ := spei_loopF_calls gw _ _ _ _ _ hvs
          simp at hx
      · exfalso
        rcases List.mem_flatMap.mp hv2 with ⟨cd, hcd, hk⟩
        rcases card_cancel_calls gw cd _ hk with ⟨s2, hs⟩ | ⟨s2, t2, hs⟩ <;>
          simp at hs
    · intro hm
      refine ⟨u.user_id, ?_⟩
      rw [hcalls]
      apply List.mem_append_left
      apply List.mem_append_left
      unfold block_mobile_user_account
      rw [if_pos hm]
      split_ifs <;> simp

/-- C9 counterexample: the Aggregator, fed a listing with two SPEI entries
carrying the same internal id, produces a record whose `active_payment_rails`
holds that id twice — the collection is a plain list and duplicates are
possible, so it does not behave as a set. -/
theorem c9_duplicate_rails_counterexample :
    (create_user_instance gw9 ["u1"]).1 = [("u1", some rec9)] ∧
    ¬ rec9.active_spei.Nodup := by
  decide

/-- C9 amended: when the SPEI internal ids collected from the listing are
themselves distinct, the record the Aggregator produces has no duplicate
rail ids, and the cancellation workflow (which only removes rail ids)
preserves that. -/
theorem c9_nodup_amended (gw gw2 : Gateway)
    (mobile : List (String × Option Bool)) (uid : String)
    (entries : List AccountEntry) (acct : UserAccount)
    (hprov : gw.check_account_providers uid = some entries)
    (hnd : ((scan_accounts entries).1).Nodup)
    (hfetch : (fetch_one_user gw mobile uid).1 = some acct) :
    acct.active_spei.Nodup ∧
    (((cancel_account gw2 acct).1).active_spei).Nodup := by
  have hsp : acct.active_spei = (scan_accounts entries).1 := by
    unfold fetch_one_user at hfetch
    rw [hprov] at hfetch
    simp only at hfetch
    by_cases hpb : (scan_accounts entries).2 = some "not_found"
    · rw [if_pos hpb] at hfetch
      have h2 := Option.some.inj hfetch
      rw [← h2]
    · rw [if_neg hpb] at hfetch
      cases hcc : gw.check_cards (scan_accounts entries).2 with
      | none => rw [hcc] at hfetch; simp at hfetch
      | some cjs =>
        rw [hcc] at hfetch
        have h2 := Option.some.inj hfetch
        rw [← h2]
  constructor
  · rw [hsp]; exact hnd
  · exact List.Nodup.sublist (cancel_spei_sublist gw2 acct)
      (by rw [hsp]; exact hnd)

/-- Witness for C9 at the one-SPEI-entry gateway `gw9b`. -/
theorem c9_witness :
    (gw9b.check_account_providers "u1" = some entries9b ∧
      ((scan_accounts entries9b).1).Nodup ∧
      (fetch_one_user gw9b [] "u1").1 = some rec9b) ∧
    (rec9b.active_spei.Nodup ∧
      (((cancel_account gwW rec9b).1).active_spei).Nodup) :=
  ⟨⟨rfl, by decide, by decide⟩,
   c9_nodup_amended gw9b gwW [] "u1" entries9b rec9b rfl (by decide) (by decide)⟩
